import Mathlib

/-!
# Verification of the readiness-polling loops of the football-intro-app scripts

This file shallowly embeds the recurring readiness-polling loops of the
deployment scripts (`deploy-monitoring-stack.py`, `deploy-with-cilium.py`,
`fix-grafana-complete.py`, `setup-cilium.py`, `deploy-with-monitoring.py`,
`deploy-full-stack.py`, `start-port-forwards.py`, `deploy.py`) and settles the
spec's claims about them.

Modelling conventions:
* A readiness check is a function `Nat → CheckResult` giving the result of the
  `n`-th evaluation (0-based): `CheckResult.val b` when the evaluation returns
  the boolean `b`, `CheckResult.exn e` when it raises exception `e`.
* Each loop is instrumented with a trace of observable events: check
  evaluations (`Event.call`) and `time.sleep` calls (`Event.sleep`).
* The Python `while elapsed < timeout` loops terminate because `elapsed`
  strictly increases by `interval ≥ 1` per iteration; the embedding makes this
  explicit with a structural fuel argument set to `timeout + 1` at the top
  level, which exceeds the number of iterations whenever `0 < interval`.
  (With `interval = 0` the source loop would not terminate; every script
  instantiates `interval` at a positive literal: 5, 10 or 1.)
-/

namespace FootballApp

/-- Result of one evaluation of a readiness check: the check either returned a
boolean or raised an exception (identified by a numeric tag). -/
inductive CheckResult where
  | val (b : Bool)
  | exn (e : Nat)
deriving DecidableEq, Repr

/-- Result of a whole readiness wait, as the caller observes it:
`ready` models `return True`, `timedOut` models `return False` after the
timeout budget is exhausted, `raised e` models an exception escaping the
wait function. -/
inductive Outcome where
  | ready
  | timedOut
  | raised (e : Nat)
deriving DecidableEq, Repr

/-- Observable events of a polling loop: `call n r` is the `n`-th evaluation
of the check with result `r`; `sleep d` is a `time.sleep(d)` call. -/
inductive Event (α : Type) where
  | call (n : Nat) (r : α)
  | sleep (d : Nat)
deriving DecidableEq, Repr

/-- Number of check evaluations recorded in a trace. -/
def callCount {α : Type} : List (Event α) → Nat
  | [] => 0
  | .call _ _ :: t => callCount t + 1
  | .sleep _ :: t => callCount t

/-- Number of sleep calls recorded in a trace. -/
def sleepCount {α : Type} : List (Event α) → Nat
  | [] => 0
  | .call _ _ :: t => sleepCount t
  | .sleep _ :: t => sleepCount t + 1

/-- Total time spent sleeping in a trace (the `elapsed` counter of the
source loops counts exactly this). -/
def sleptTime {α : Type} : List (Event α) → Nat
  | [] => 0
  | .call _ _ :: t => sleptTime t
  | .sleep d :: t => d + sleptTime t

/-- `true` iff the trace never records two check evaluations back to back
with no sleep in between. -/
def spacedCalls {α : Type} : List (Event α) → Bool
  | .call _ _ :: .call _ _ :: _ => false
  | _ :: t => spacedCalls t
  | [] => true

/-- `true` iff every sleep recorded in the trace has duration exactly `d`. -/
def sleepsAre {α : Type} (d : Nat) : List (Event α) → Bool
  | [] => true
  | .call _ _ :: t => sleepsAre d t
  | .sleep x :: t => decide (x = d) && sleepsAre d t

/-- The outcome of a readiness wait together with its event trace. -/
structure WaitTrace where
  outcome : Outcome
  trace : List (Event CheckResult)
deriving DecidableEq, Repr

/-- The body of the readiness-wait loops shared (by copy-paste) by the
deployment scripts:

```
elapsed = 0
while elapsed < timeout:
    <evaluate check>                  # possibly inside try/except: pass
    if <ready>: return True
    time.sleep(interval)
    elapsed += interval
return False
```

`catchExn = true` embeds the variants that wrap the evaluation in
`try: ... except: pass` (deploy-with-cilium.py `check_pods_ready`,
setup-cilium.py, deploy-with-monitoring.py, deploy-full-stack.py);
`catchExn = false` embeds the variants with no exception handler
(deploy-monitoring-stack.py `wait_for_pods`, fix-grafana-complete.py
`wait_for_pod`), in which a raising evaluation escapes the function.
The structural `fuel` argument only makes termination syntactic; it never
runs out when `0 < interval` and the initial fuel is `timeout + 1`. -/
def pollLoopAux (catchExn : Bool) (check : Nat → CheckResult)
    (interval timeout : Nat) : Nat → Nat → Nat → WaitTrace
  | 0, _, _ => ⟨.timedOut, []⟩
  | fuel + 1, elapsed, n =>
    if elapsed < timeout then
      match check n with
      | .val true => ⟨.ready, [.call n (.val true)]⟩
      | .val false =>
        let r := pollLoopAux catchExn check interval timeout fuel (elapsed + interval) (n + 1)
        ⟨r.outcome, .call n (.val false) :: .sleep interval :: r.trace⟩
      | .exn e =>
        if catchExn then
          let r := pollLoopAux catchExn check interval timeout fuel (elapsed + interval) (n + 1)
          ⟨r.outcome, .call n (.exn e) :: .sleep interval :: r.trace⟩
        else ⟨.raised e, [.call n (.exn e)]⟩
    else ⟨.timedOut, []⟩

/-- A readiness wait starting from `elapsed = 0` and evaluation index 0. -/
def pollLoop (catchExn : Bool) (check : Nat → CheckResult)
    (interval timeout : Nat) : WaitTrace :=
  pollLoopAux catchExn check interval timeout (timeout + 1) 0 0

/-- `wait_for_pods` of deploy-monitoring-stack.py: interval 5, default
timeout 120, no exception handler around the evaluation. -/
def wait_for_pods (check : Nat → CheckResult) (timeout : Nat := 120) : WaitTrace :=
  pollLoop false check 5 timeout

/-- `wait_for_pod` of fix-grafana-complete.py: same loop as `wait_for_pods`. -/
def wait_for_pod (check : Nat → CheckResult) (timeout : Nat := 120) : WaitTrace :=
  pollLoop false check 5 timeout

/-- `check_pods_ready` of deploy-with-cilium.py: interval 5, default timeout
120, the whole evaluation wrapped in `try: ... except: pass`. -/
def check_pods_ready (check : Nat → CheckResult) (timeout : Nat := 120) : WaitTrace :=
  pollLoop true check 5 timeout

/-- The inline Cilium-readiness loop of setup-cilium.py `main`
(timeout 300, interval 10, `try/except: pass`). -/
def setup_cilium_wait (check : Nat → CheckResult) : WaitTrace :=
  pollLoop true check 10 300

/-- The inline pod-readiness loop of deploy-with-monitoring.py `main`
(timeout 120, interval 5, `try/except: pass`). -/
def monitoring_pods_wait (check : Nat → CheckResult) : WaitTrace :=
  pollLoop true check 5 120

/-- The inline pod-readiness loop of deploy-full-stack.py `main`
(timeout 120, interval 5, `try/except: pass`). -/
def full_stack_pods_wait (check : Nat → CheckResult) : WaitTrace :=
  pollLoop true check 5 120

/-- Result of `check_service` / `check_url`: the returned boolean plus the
trace of HTTP attempts (`call n (some status)` for a response with the given
status code, `call n none` for an attempt that raised) and sleeps. -/
structure SvcTrace where
  ok : Bool
  trace : List (Event (Option Nat))
deriving DecidableEq, Repr

/-- `check_service` of deploy-monitoring-stack.py:

```
for _ in range(timeout):
    try:
        response = urllib.request.urlopen(url, timeout=2)
        if response.status == 200:
            return True
    except:
        time.sleep(1)
return False
```

Note the sleep sits in the `except` branch only: an attempt that returns a
non-200 status without raising is followed immediately by the next attempt. -/
def check_service_loop (attempt : Nat → Option Nat) : Nat → Nat → SvcTrace
  | 0, _ => ⟨false, []⟩
  | k + 1, n =>
    match attempt n with
    | some 200 => ⟨true, [.call n (some 200)]⟩
    | some c =>
      let r := check_service_loop attempt k (n + 1)
      ⟨r.ok, .call n (some c) :: r.trace⟩
    | none =>
      let r := check_service_loop attempt k (n + 1)
      ⟨r.ok, .call n none :: .sleep 1 :: r.trace⟩

/-- `check_service` with its default budget of 30 attempts. -/
def check_service (attempt : Nat → Option Nat) (timeout : Nat := 30) : SvcTrace :=
  check_service_loop attempt timeout 0

/-! ## The per-evaluation readiness predicates applied to kubectl output -/

/-- Python's `"pat" in s` substring test. -/
def strContains (s pat : String) : Bool :=
  decide (pat.toList <:+: s.toList)

/-- The readiness signal of deploy-monitoring-stack.py line 65 (and
fix-grafana-complete.py line 78): `result.stdout and "true" in result.stdout`,
where the truthiness of a Python string is its non-emptiness. -/
def wait_for_pods_ready_sig (stdout : String) : Bool :=
  decide (stdout ≠ "") && strContains stdout "true"

/-- The readiness signal of deploy-full-stack.py line 195:
`"true" in result.stdout`. -/
def full_stack_ready_sig (stdout : String) : Bool :=
  strContains stdout "true"

/-- Whitespace as recognised by Python's `str.strip()` / `str.split()`
with no arguments: space, tab, newline, carriage return, vertical tab,
form feed. -/
def isPySpace (c : Char) : Bool :=
  c == ' ' || c == '\t' || c == '\n' || c == '\r' || c == '\x0b' || c == '\x0c'

/-- Python's `s.strip()`: drop leading and trailing whitespace. -/
def pyStrip (l : List Char) : List Char :=
  ((l.dropWhile isPySpace).reverse.dropWhile isPySpace).reverse

/-- Python's `s.split()` with no arguments: the maximal runs of
non-whitespace characters, left to right. `acc` holds the (reversed)
characters of the word currently being read. -/
def pySplitWsAux : List Char → List Char → List (List Char)
  | [], acc => if acc.isEmpty then [] else [acc.reverse]
  | c :: cs, acc =>
    if isPySpace c then
      if acc.isEmpty then pySplitWsAux cs [] else acc.reverse :: pySplitWsAux cs []
    else pySplitWsAux cs (c :: acc)

/-- Python's `s.split()` with no arguments. -/
def pySplitWs (l : List Char) : List (List Char) :=
  pySplitWsAux l []

/-- The readiness signal of deploy-with-monitoring.py line 124:
`all(status == "true" for status in result.stdout.strip().split())`. -/
def monitoring_ready_sig (stdout : String) : Bool :=
  (pySplitWs (pyStrip stdout.toList)).all fun t => decide (String.mk t = "true")

/-- The event trace produced by `m` consecutive not-ready evaluations
starting at evaluation index `n`: each `false` evaluation is followed by one
sleep of the polling interval. -/
def falseRun (interval : Nat) : Nat → Nat → List (Event CheckResult)
  | _, 0 => []
  | n, m + 1 => .call n (.val false) :: .sleep interval :: falseRun interval (n + 1) m

/-! ## The exit-code behaviour of deploy-with-cilium.py `main` -/

/-- The external-world outcomes that determine the control flow of
deploy-with-cilium.py `main`: whether each shelled-out command succeeds,
and the result sequence of the kubectl pod-readiness evaluations that
feed `check_pods_ready`. -/
structure CiliumDeployEnv where
  buildOk : Bool
  loadOk : Bool
  deployManifestOk : Bool
  serviceManifestOk : Bool
  podsCheck : Nat → CheckResult

/-- The process exit code of deploy-with-cilium.py `main`: `sys.exit(1)` when
the image build, the image load, or one of the two `kubectl apply` commands
fails; otherwise the script runs `check_pods_ready(...)` at line 116, discards
its return value, prints status, and finishes with exit code 0. -/
def deploy_with_cilium_exit (env : CiliumDeployEnv) : Nat :=
  if !env.buildOk then 1
  else if !env.loadOk then 1
  else if !env.deployManifestOk then 1
  else if !env.serviceManifestOk then 1
  else
    let _gate := check_pods_ready env.podsCheck 120
    0

/-! ## General lemmas about the polling loops -/

/-- A check that is ready on its first evaluation makes the wait return
ready at once: one evaluation, no sleep, whatever the (positive) timeout. -/
theorem pollLoop_first_true (c : Bool) (check : Nat → CheckResult) (interval timeout : Nat)
    (h0 : check 0 = .val true) (ht : 0 < timeout) :
    pollLoop c check interval timeout = ⟨.ready, [.call 0 (.val true)]⟩ := by
  simp [pollLoop, pollLoopAux, ht, h0]

/-- Unrolling `m` consecutive not-ready evaluations: if the first `m`
evaluations from index `n` are `false` and the elapsed budget allows all of
them, the loop contributes `m` (evaluate, sleep) pairs to the trace and
continues from the advanced position. -/
theorem pollLoopAux_falseRun (c : Bool) (check : Nat → CheckResult) (interval timeout : Nat)
    (m : Nat) : ∀ fuel elapsed n,
    (∀ j, j < m → check (n + j) = .val false) →
    elapsed + m * interval < timeout → m ≤ fuel →
    pollLoopAux c check interval timeout fuel elapsed n =
      ⟨(pollLoopAux c check interval timeout (fuel - m) (elapsed + m * interval) (n + m)).outcome,
       falseRun interval n m ++
         (pollLoopAux c check interval timeout (fuel - m) (elapsed + m * interval) (n + m)).trace⟩ := by
  induction m with
  | zero => intro fuel elapsed n _ _ _; simp [falseRun]
  | succ m ih =>
    intro fuel elapsed n hf hlt hfuel
    obtain ⟨f, rfl⟩ : ∃ f, fuel = f + 1 := ⟨fuel - 1, by omega⟩
    have he : elapsed < timeout := by
      have : elapsed ≤ elapsed + (m + 1) * interval := Nat.le_add_right _ _
      omega
    have h0 : check n = .val false := by
      have := hf 0 (by omega)
      simpa using this
    have harith : elapsed + interval + m * interval = elapsed + (m + 1) * interval := by ring
    have hidx : n + 1 + m = n + (m + 1) := by omega
    have hfm : f - m = f + 1 - (m + 1) := by omega
    simp only [pollLoopAux, if_pos he, h0]
    rw [ih f (elapsed + interval) (n + 1)
      (fun j hj => by
        have h2 := hf (j + 1) (by omega)
        rw [show n + 1 + j = n + (j + 1) from by omega]
        exact h2)
      (by rw [harith]; exact hlt) (by omega)]
    simp only [harith, hidx, hfm]
    simp [falseRun]

/-- Counting the events of a run of `m` not-ready evaluations. -/
theorem falseRun_counts (interval : Nat) : ∀ m n,
    callCount (falseRun interval n m) = m ∧
    sleepCount (falseRun interval n m) = m ∧
    sleptTime (falseRun interval n m) = m * interval := by
  intro m
  induction m with
  | zero => intro n; simp [falseRun, callCount, sleepCount, sleptTime]
  | succ m ih =>
    intro n
    obtain ⟨h1, h2, h3⟩ := ih (n + 1)
    simp [falseRun, callCount, sleepCount, sleptTime, h1, h2, h3, Nat.succ_mul]
    omega

/-- `callCount` distributes over trace concatenation. -/
theorem callCount_append {α : Type} (t u : List (Event α)) :
    callCount (t ++ u) = callCount t + callCount u := by
  induction t with
  | nil => simp [callCount]
  | cons e t ih =>
    cases e with
    | call n r => simp [callCount, ih]; omega
    | sleep d => simp [callCount, ih]

/-- `sleepCount` distributes over trace concatenation. -/
theorem sleepCount_append {α : Type} (t u : List (Event α)) :
    sleepCount (t ++ u) = sleepCount t + sleepCount u := by
  induction t with
  | nil => simp [sleepCount]
  | cons e t ih =>
    cases e with
    | call n r => simp [sleepCount, ih]
    | sleep d => simp [sleepCount, ih]; omega

/-- `sleptTime` distributes over trace concatenation. -/
theorem sleptTime_append {α : Type} (t u : List (Event α)) :
    sleptTime (t ++ u) = sleptTime t + sleptTime u := by
  induction t with
  | nil => simp [sleptTime]
  | cons e t ih =>
    cases e with
    | call n r => simp [sleptTime, ih]
    | sleep d => simp [sleptTime, ih]; omega

/-- Behaviour of the loop under a check that is never ready: it reports a
timeout, one sleep per evaluation, and the total slept time lands in the
interval `[timeout, timeout + interval)`. -/
theorem pollLoopAux_allFalse (c : Bool) (check : Nat → CheckResult) (interval timeout : Nat)
    (hf : ∀ m, check m = .val false) (hi : 0 < interval) : ∀ fuel elapsed n,
    timeout ≤ elapsed + fuel → elapsed < timeout + interval →
    (pollLoopAux c check interval timeout fuel elapsed n).outcome = .timedOut ∧
    sleepCount (pollLoopAux c check interval timeout fuel elapsed n).trace =
      callCount (pollLoopAux c check interval timeout fuel elapsed n).trace ∧
    sleptTime (pollLoopAux c check interval timeout fuel elapsed n).trace =
      sleepCount (pollLoopAux c check interval timeout fuel elapsed n).trace * interval ∧
    timeout ≤ elapsed + sleptTime (pollLoopAux c check interval timeout fuel elapsed n).trace ∧
    elapsed + sleptTime (pollLoopAux c check interval timeout fuel elapsed n).trace <
      timeout + interval := by
  intro fuel
  induction fuel with
  | zero =>
    intro elapsed n h1 h2
    simp only [pollLoopAux]
    simp [callCount, sleepCount, sleptTime]
    omega
  | succ f ih =>
    intro elapsed n h1 h2
    by_cases he : elapsed < timeout
    · obtain ⟨o1, o2, o3, o4, o5⟩ := ih (elapsed + interval) (n + 1) (by omega) (by omega)
      simp only [pollLoopAux, if_pos he, hf n]
      simp only [callCount, sleepCount, sleptTime]
      refine ⟨o1, by omega, ?_, by omega, by omega⟩
      rw [o3, Nat.succ_mul]
      omega
    · simp only [pollLoopAux, if_neg he]
      simp [callCount, sleepCount, sleptTime]
      omega

/-- Dropping a sleep from the head of a trace preserves `spacedCalls`. -/
theorem spacedCalls_sleep_cons {α : Type} (d : Nat) (t : List (Event α)) :
    spacedCalls (.sleep d :: t) = spacedCalls t := rfl

/-- A call followed by a sleep puts no two calls back to back at the head. -/
theorem spacedCalls_call_sleep {α : Type} (n : Nat) (r : α) (d : Nat) (t : List (Event α)) :
    spacedCalls (.call n r :: .sleep d :: t) = spacedCalls t := rfl

/-- A trace consisting of a single call is spaced. -/
theorem spacedCalls_single_call {α : Type} (n : Nat) (r : α) :
    spacedCalls [Event.call n r] = true := rfl

/-- Every trace of the pod-polling loops is spaced: a sleep of exactly the
configured interval separates any two consecutive evaluations. -/
theorem pollLoopAux_spaced (c : Bool) (check : Nat → CheckResult) (interval timeout : Nat) :
    ∀ fuel elapsed n,
    spacedCalls (pollLoopAux c check interval timeout fuel elapsed n).trace = true ∧
    sleepsAre interval (pollLoopAux c check interval timeout fuel elapsed n).trace = true := by
  intro fuel
  induction fuel with
  | zero => intro elapsed n; simp [pollLoopAux, spacedCalls, sleepsAre]
  | succ f ih =>
    intro elapsed n
    by_cases he : elapsed < timeout
    · rcases hc : check n with b | e
      · cases b
        · obtain ⟨s1, s2⟩ := ih (elapsed + interval) (n + 1)
          simp only [pollLoopAux, if_pos he, hc]
          simp [spacedCalls_call_sleep, sleepsAre, s1, s2]
        · simp only [pollLoopAux, if_pos he, hc]
          simp [spacedCalls_single_call, sleepsAre]
      · obtain ⟨s1, s2⟩ := ih (elapsed + interval) (n + 1)
        cases c
        · simp only [pollLoopAux, if_pos he, hc]
          simp [spacedCalls_single_call, sleepsAre]
        · simp only [pollLoopAux, if_pos he, hc]
          simp [spacedCalls_call_sleep, sleepsAre, s1, s2]
    · simp [pollLoopAux, if_neg he, spacedCalls, sleepsAre]

/-! ## Lemmas about the kubectl-output predicates -/

/-- Every word produced by the splitting pass is a contiguous substring of
the accumulator-prefixed input. -/
theorem mem_pySplitWsAux_isInfix :
    ∀ (l acc t : List Char), t ∈ pySplitWsAux l acc → t <:+: acc.reverse ++ l := by
  intro l
  induction l with
  | nil =>
    intro acc t ht
    by_cases ha : acc.isEmpty
    · simp [pySplitWsAux, ha] at ht
    · simp [pySplitWsAux, ha] at ht
      subst ht
      exact ⟨[], [], by simp⟩
  | cons ch cs ih =>
    intro acc t ht
    by_cases hsp : isPySpace ch
    · by_cases ha : acc.isEmpty
      · have ha2 : acc = [] := List.isEmpty_iff.mp ha
        subst ha2
        simp only [pySplitWsAux, hsp, if_pos rfl] at ht
        simp only [if_true] at ht
        have h2 := ih [] t (by simpa using ht)
        obtain ⟨s, u, hsu⟩ := h2
        exact ⟨ch :: s, u, by simp at hsu ⊢; simp [hsu]⟩
      · simp only [pySplitWsAux, hsp, if_true, if_neg ha, List.mem_cons] at ht
        rcases ht with rfl | ht
        · exact ⟨[], ch :: cs, by simp⟩
        · have h2 := ih [] t ht
          obtain ⟨s, u, hsu⟩ := h2
          simp only [List.reverse_nil, List.nil_append] at hsu
          exact ⟨acc.reverse ++ ch :: s, u, by simp [hsu]⟩
    · simp only [pySplitWsAux, hsp, if_false] at ht
      have h2 := ih (ch :: acc) t (by simpa using ht)
      simpa [List.reverse_cons, List.append_assoc] using h2

/-- Every word of Python's `split()` is a contiguous substring of the input. -/
theorem mem_pySplitWs_isInfix (l t : List Char) (h : t ∈ pySplitWs l) : t <:+: l := by
  have h2 := mem_pySplitWsAux_isInfix l [] t h
  simpa using h2

/-- `strip()` returns a contiguous substring of its input. -/
theorem pyStrip_isInfix (l : List Char) : pyStrip l <:+: l := by
  have h1 : l.dropWhile isPySpace <:+ l :=
    ⟨l.takeWhile isPySpace, List.takeWhile_append_dropWhile _ _⟩
  have h2 : pyStrip l <+: l.dropWhile isPySpace := by
    refine ⟨((l.dropWhile isPySpace).reverse.takeWhile isPySpace).reverse, ?_⟩
    unfold pyStrip
    rw [← List.reverse_append, List.takeWhile_append_dropWhile, List.reverse_reverse]
  exact h2.isInfix.trans h1.isInfix

/-- Splitting a whitespace-only string yields no words. -/
theorem pySplitWsAux_nil_of_space (l : List Char) (h : ∀ ch ∈ l, isPySpace ch = true) :
    pySplitWsAux l [] = [] := by
  induction l with
  | nil => rfl
  | cons ch cs ih =>
    have hsp := h ch (List.mem_cons_self _ _)
    simp only [pySplitWsAux, hsp, if_true, List.isEmpty_nil]
    exact ih fun d hd => h d (List.mem_cons_of_mem _ hd)

/-- On whitespace-only (or empty) kubectl output, the all-tokens readiness
test of deploy-with-monitoring.py is vacuously true. -/
theorem monitoring_sig_of_space (s : String) (h : s.toList.all isPySpace = true) :
    monitoring_ready_sig s = true := by
  unfold monitoring_ready_sig pySplitWs
  rw [pySplitWsAux_nil_of_space]
  · rfl
  · intro ch hc
    have hsub : ch ∈ s.toList := (pyStrip_isInfix s.toList).sublist.subset hc
    exact List.all_eq_true.mp h ch hsub

/-- When the output has at least one token and every token equals `"true"`,
the substring test of deploy-full-stack.py also reports ready. -/
theorem full_stack_of_monitoring (s : String)
    (hne : pySplitWs (pyStrip s.toList) ≠ [])
    (hall : monitoring_ready_sig s = true) : full_stack_ready_sig s = true := by
  obtain ⟨t, ts, ht⟩ : ∃ t ts, pySplitWs (pyStrip s.toList) = t :: ts := by
    rcases hsp : pySplitWs (pyStrip s.toList) with _ | ⟨t, ts⟩
    · exact absurd hsp hne
    · exact ⟨t, ts, rfl⟩
  have hmem : t ∈ pySplitWs (pyStrip s.toList) := by
    rw [ht]; exact List.mem_cons_self _ _
  unfold monitoring_ready_sig at hall
  have hdec := List.all_eq_true.mp hall t hmem
  have heq : String.mk t = "true" := of_decide_eq_true hdec
  have ht2 : t = "true".toList := congrArg String.toList heq
  have hinf : t <:+: s.toList :=
    (mem_pySplitWs_isInfix _ _ hmem).trans (pyStrip_isInfix s.toList)
  unfold full_stack_ready_sig strContains
  exact decide_eq_true (ht2 ▸ hinf)

/-- The non-emptiness guard of `result.stdout and "true" in result.stdout`
is redundant: the readiness signal coincides with the plain substring test. -/
theorem wait_sig_eq_strContains (s : String) :
    wait_for_pods_ready_sig s = strContains s "true" := by
  by_cases hs : s = ""
  · subst hs; decide
  · simp [wait_for_pods_ready_sig, hs]

/-! ## The claims -/

/-- C1, counterexample: with `timeout = 0` and a check that would be ready at
once, `wait_for_pods` performs zero evaluations — not the one evaluation the
claim requires. -/
theorem c1_counterexample :
    callCount (wait_for_pods (fun _ => CheckResult.val true) 0).trace = 0 ∧
    ¬ callCount (wait_for_pods (fun _ => CheckResult.val true) 0).trace = 1 := by
  decide

/-- C1, amended: with `timeout = 0` the readiness loops return immediately,
without sleeping, but having evaluated the check zero times (the
`while elapsed < timeout` guard fails on entry), and report the timeout
outcome (`return False`). -/
theorem c1_amended :
    (∀ check, wait_for_pods check 0 = ⟨.timedOut, []⟩) ∧
    (∀ check, check_pods_ready check 0 = ⟨.timedOut, []⟩) ∧
    (∀ catchExn check interval, pollLoop catchExn check interval 0 = ⟨.timedOut, []⟩) := by
  refine ⟨fun _ => rfl, fun _ => rfl, fun _ _ _ => rfl⟩

/-- C2, counterexample: `check_pods_ready` of deploy-with-cilium.py swallows
every exception raised by its evaluation (`try: ... except: pass`); a check
that raises on every evaluation ends in `TimedOut`, the exception is never
propagated. -/
theorem c2_counterexample :
    (check_pods_ready (fun _ => CheckResult.exn 7) 120).outcome = Outcome.timedOut ∧
    ¬ (check_pods_ready (fun _ => CheckResult.exn 7) 120).outcome = Outcome.raised 7 := by
  decide

/-- C2, amended: the loops with no exception handler (`wait_for_pods`,
`wait_for_pod`, i.e. `pollLoop false`) do propagate: a check that raises `e`
on its evaluation `k` (after `k` prior `false` evaluations that fit in the
budget) makes the wait terminate by raising `e` after exactly `k + 1`
evaluations — never reporting `TimedOut` in its place; but the
`try/except: pass` variants (`check_pods_ready`, setup-cilium's loop) treat
the raising evaluation as not-ready and poll on. -/
theorem c2_amended (check : Nat → CheckResult) (interval timeout k e : Nat)
    (hi : 0 < interval)
    (hf : ∀ j, j < k → check j = .val false)
    (hk : check k = .exn e)
    (hb : k * interval < timeout) :
    pollLoop false check interval timeout =
      ⟨.raised e, falseRun interval 0 k ++ [.call k (.exn e)]⟩ ∧
    callCount (pollLoop false check interval timeout).trace = k + 1 ∧
    sleepCount (pollLoop false check interval timeout).trace = k := by
  have hk2 : k ≤ k * interval := by
    have := Nat.mul_le_mul_left k hi
    omega
  have hrun := pollLoopAux_falseRun false check interval timeout k (timeout + 1) 0 0
    (fun j hj => by simpa using hf j hj) (by omega) (by omega)
  obtain ⟨g, hg⟩ : ∃ g, timeout + 1 - k = g + 1 := ⟨timeout - k, by omega⟩
  have hcont :
      pollLoopAux false check interval timeout (timeout + 1 - k) (0 + k * interval) (0 + k) =
        ⟨.raised e, [.call k (.exn e)]⟩ := by
    rw [hg]
    have hlt : k * interval < timeout := by omega
    simp [pollLoopAux, hk, hlt]
  have hmain : pollLoop false check interval timeout =
      ⟨.raised e, falseRun interval 0 k ++ [.call k (.exn e)]⟩ := by
    unfold pollLoop
    rw [hrun, hcont]
  refine ⟨hmain, ?_, ?_⟩
  · rw [hmain]
    obtain ⟨hc, _, _⟩ := falseRun_counts interval k 0
    simp [callCount_append, hc, callCount]
  · rw [hmain]
    obtain ⟨_, hs, _⟩ := falseRun_counts interval k 0
    simp [sleepCount_append, hs, sleepCount]

/-- C2, witness: a check that is `false` twice and raises `7` on its third
evaluation makes `pollLoop false` (the `wait_for_pods` loop, interval 5,
timeout 120) propagate the exception after exactly two sleeps. -/
theorem c2_witness :
    (0 < 5 ∧
      (∀ j, j < 2 → (fun n => if n < 2 then CheckResult.val false else CheckResult.exn 7) j =
        CheckResult.val false) ∧
      (fun n => if n < 2 then CheckResult.val false else CheckResult.exn 7) 2 =
        CheckResult.exn 7 ∧
      2 * 5 < 120) ∧
    (pollLoop false (fun n => if n < 2 then CheckResult.val false else CheckResult.exn 7) 5 120 =
        ⟨.raised 7, falseRun 5 0 2 ++ [.call 2 (.exn 7)]⟩ ∧
      callCount (pollLoop false
        (fun n => if n < 2 then CheckResult.val false else CheckResult.exn 7) 5 120).trace =
        2 + 1 ∧
      sleepCount (pollLoop false
        (fun n => if n < 2 then CheckResult.val false else CheckResult.exn 7) 5 120).trace = 2) :=
  ⟨⟨by decide, by decide, by decide, by decide⟩,
    c2_amended (fun n => if n < 2 then CheckResult.val false else CheckResult.exn 7) 5 120 2 7
      (by decide) (by decide) (by decide) (by decide)⟩

/-- C3, counterexample: with `timeout = 0`, a check that returns `true` on
its (would-be) first evaluation does not make the wait return ready — the
loop body never runs and the wait reports the timeout outcome. -/
theorem c3_counterexample :
    ¬ (wait_for_pods (fun _ => CheckResult.val true) 0).outcome = Outcome.ready ∧
    (wait_for_pods (fun _ => CheckResult.val true) 0).outcome = Outcome.timedOut := by
  decide

/-- C3, amended: for every positive timeout, a check that returns `true` on
its first evaluation makes the wait return ready with exactly one evaluation
and no sleep at all. (The claim's "regardless of config.timeout" fails only
at `timeout = 0`, where no evaluation happens.) -/
theorem c3_amended (catchExn : Bool) (check : Nat → CheckResult) (interval timeout : Nat)
    (h0 : check 0 = .val true) (ht : 0 < timeout) :
    pollLoop catchExn check interval timeout = ⟨.ready, [.call 0 (.val true)]⟩ ∧
    callCount (pollLoop catchExn check interval timeout).trace = 1 ∧
    sleepCount (pollLoop catchExn check interval timeout).trace = 0 := by
  have h := pollLoop_first_true catchExn check interval timeout h0 ht
  rw [h]
  exact ⟨rfl, rfl, rfl⟩

/-- C3, witness: an always-ready check with interval 5 and timeout 7. -/
theorem c3_witness :
    ((fun _ => CheckResult.val true) 0 = CheckResult.val true ∧ 0 < 7) ∧
    (pollLoop false (fun _ => CheckResult.val true) 5 7 = ⟨.ready, [.call 0 (.val true)]⟩ ∧
      callCount (pollLoop false (fun _ => CheckResult.val true) 5 7).trace = 1 ∧
      sleepCount (pollLoop false (fun _ => CheckResult.val true) 5 7).trace = 0) :=
  ⟨⟨rfl, by decide⟩,
    c3_amended false (fun _ => CheckResult.val true) 5 7 rfl (by decide)⟩

/-- C4, confirmed: a check that first becomes ready on its `k`-th evaluation,
with `k · interval ≤ timeout`, makes the readiness wait return ready after
exactly `k` evaluations and exactly `k - 1` sleeps, for a total waiting time
of `(k - 1) · interval`. -/
theorem c4_k_evaluations (catchExn : Bool) (check : Nat → CheckResult)
    (interval timeout k : Nat)
    (hi : 0 < interval) (hk : 0 < k)
    (hf : ∀ i, i < k - 1 → check i = .val false)
    (ht : check (k - 1) = .val true)
    (hb : k * interval ≤ timeout) :
    (pollLoop catchExn check interval timeout).outcome = .ready ∧
    callCount (pollLoop catchExn check interval timeout).trace = k ∧
    sleepCount (pollLoop catchExn check interval timeout).trace = k - 1 ∧
    sleptTime (pollLoop catchExn check interval timeout).trace = (k - 1) * interval := by
  have hkk : k * interval = (k - 1) * interval + interval := by
    cases k with
    | zero => omega
    | succ m => simp [Nat.succ_mul]
  have hlt : (k - 1) * interval < timeout := by omega
  have hk2 : k - 1 ≤ (k - 1) * interval := by
    have := Nat.mul_le_mul_left (k - 1) hi
    omega
  have hrun := pollLoopAux_falseRun catchExn check interval timeout (k - 1) (timeout + 1) 0 0
    (fun j hj => by simpa using hf j hj) (by omega) (by omega)
  obtain ⟨g, hg⟩ : ∃ g, timeout + 1 - (k - 1) = g + 1 := ⟨timeout - (k - 1), by omega⟩
  have hcont :
      pollLoopAux catchExn check interval timeout (timeout + 1 - (k - 1))
        (0 + (k - 1) * interval) (0 + (k - 1)) =
        ⟨.ready, [.call (k - 1) (.val true)]⟩ := by
    rw [hg]
    simp [pollLoopAux, ht, hlt]
  have hmain : pollLoop catchExn check interval timeout =
      ⟨.ready, falseRun interval 0 (k - 1) ++ [.call (k - 1) (.val true)]⟩ := by
    unfold pollLoop
    rw [hrun, hcont]
  obtain ⟨hc, hs, hst⟩ := falseRun_counts interval (k - 1) 0
  rw [hmain]
  refine ⟨rfl, ?_, ?_, ?_⟩
  · simp [callCount_append, hc, callCount]
    omega
  · simp [sleepCount_append, hs, sleepCount]
  · simp [sleptTime_append, hst, sleptTime]

/-- C4, witness: the spec's concrete scenario — a check returning
`false, false, true`, interval 2, timeout 30: ready after 3 evaluations and
2 sleeps, 4 time units waited. -/
theorem c4_witness :
    (0 < 2 ∧ 0 < 3 ∧
      (∀ i, i < 3 - 1 → (fun n => CheckResult.val (decide (2 ≤ n))) i = CheckResult.val false) ∧
      (fun n => CheckResult.val (decide (2 ≤ n))) (3 - 1) = CheckResult.val true ∧
      3 * 2 ≤ 30) ∧
    ((pollLoop false (fun n => CheckResult.val (decide (2 ≤ n))) 2 30).outcome = .ready ∧
      callCount (pollLoop false (fun n => CheckResult.val (decide (2 ≤ n))) 2 30).trace = 3 ∧
      sleepCount (pollLoop false (fun n => CheckResult.val (decide (2 ≤ n))) 2 30).trace =
        3 - 1 ∧
      sleptTime (pollLoop false (fun n => CheckResult.val (decide (2 ≤ n))) 2 30).trace =
        (3 - 1) * 2) :=
  ⟨⟨by decide, by decide, by decide, by decide, by decide⟩,
    c4_k_evaluations false (fun n => CheckResult.val (decide (2 ≤ n))) 2 30 3
      (by decide) (by decide) (by decide) (by decide) (by decide)⟩

/-- C5, confirmed: for a check that never becomes ready, any positive
interval and any timeout, the wait terminates with the timeout outcome, one
sleep per evaluation, and a total waiting time in `[timeout, timeout +
interval)`; the number of evaluations times the interval lies in the same
window (so interval 1, timeout 5 gives exactly 5 evaluations, within the
claimed 5–6). -/
theorem c5_timeout_bounds (catchExn : Bool) (check : Nat → CheckResult)
    (interval timeout : Nat)
    (hi : 0 < interval) (hf : ∀ m, check m = .val false) :
    (pollLoop catchExn check interval timeout).outcome = .timedOut ∧
    sleepCount (pollLoop catchExn check interval timeout).trace =
      callCount (pollLoop catchExn check interval timeout).trace ∧
    timeout ≤ sleptTime (pollLoop catchExn check interval timeout).trace ∧
    sleptTime (pollLoop catchExn check interval timeout).trace < timeout + interval ∧
    timeout ≤ callCount (pollLoop catchExn check interval timeout).trace * interval ∧
    callCount (pollLoop catchExn check interval timeout).trace * interval <
      timeout + interval := by
  obtain ⟨o1, o2, o3, o4, o5⟩ :=
    pollLoopAux_allFalse catchExn check interval timeout hf hi (timeout + 1) 0 0
      (by omega) (by omega)
  unfold pollLoop
  rw [o2] at o3
  refine ⟨o1, o2, by omega, by omega, ?_, ?_⟩
  · rw [← o3]; omega
  · rw [← o3]; omega

/-- C5, witness: the spec's concrete scenario — an always-false check,
interval 1, timeout 5: timed out, 5 evaluations (within 5–6), 5 time units
slept. -/
theorem c5_witness :
    (0 < 1 ∧ ∀ m : Nat, (fun _ : Nat => CheckResult.val false) m = CheckResult.val false) ∧
    callCount (pollLoop true (fun _ => CheckResult.val false) 1 5).trace = 5 ∧
    ((pollLoop true (fun _ => CheckResult.val false) 1 5).outcome = .timedOut ∧
      sleepCount (pollLoop true (fun _ => CheckResult.val false) 1 5).trace =
        callCount (pollLoop true (fun _ => CheckResult.val false) 1 5).trace ∧
      5 ≤ sleptTime (pollLoop true (fun _ => CheckResult.val false) 1 5).trace ∧
      sleptTime (pollLoop true (fun _ => CheckResult.val false) 1 5).trace < 5 + 1 ∧
      5 ≤ callCount (pollLoop true (fun _ => CheckResult.val false) 1 5).trace * 1 ∧
      callCount (pollLoop true (fun _ => CheckResult.val false) 1 5).trace * 1 < 5 + 1) :=
  ⟨⟨by decide, fun _ => rfl⟩, by decide,
    c5_timeout_bounds true (fun _ => CheckResult.val false) 1 5 (by decide) (fun _ => rfl)⟩

/-- C6, counterexample: `check_service` (deploy-monitoring-stack.py) re-polls
with no sleep at all when the HTTP attempt returns a non-200 status without
raising: with its default budget of 30 attempts it performs 30 evaluations
and zero sleeps — two successive evaluations with no sleep in between. -/
theorem c6_counterexample :
    callCount (check_service (fun _ => some 500)).trace = 30 ∧
    sleepCount (check_service (fun _ => some 500)).trace = 0 ∧
    spacedCalls (check_service (fun _ => some 500)).trace = false := by
  decide

/-- C6, amended: the pod-readiness loops do keep the interval — in every
trace of `pollLoop`, any two successive evaluations are separated by a sleep
of exactly the configured interval; the claim fails for the HTTP checks
(`check_service`, `check_url`), which sleep only when the attempt raises, so
an attempt returning a non-200 status without raising is followed
immediately by the next attempt. -/
theorem c6_spacing_amended :
    ∀ (catchExn : Bool) (check : Nat → CheckResult) (interval timeout : Nat),
    spacedCalls (pollLoop catchExn check interval timeout).trace = true ∧
    sleepsAre interval (pollLoop catchExn check interval timeout).trace = true := by
  intro catchExn check interval timeout
  exact pollLoopAux_spaced catchExn check interval timeout (timeout + 1) 0 0

/-- C7, counterexample: a run of deploy-with-cilium.py in which every
shelled-out command succeeds but the pods never become ready: the readiness
gate reports the timeout outcome, yet the script still exits 0 (the return
value of `check_pods_ready` at line 116 is discarded). -/
theorem c7_counterexample :
    deploy_with_cilium_exit ⟨true, true, true, true, fun _ => CheckResult.val false⟩ = 0 ∧
    (check_pods_ready
      ((⟨true, true, true, true, fun _ => CheckResult.val false⟩ : CiliumDeployEnv).podsCheck)
      120).outcome = Outcome.timedOut := by
  constructor
  · rfl
  · decide

/-- C7, amended: the deployment scripts treat readiness-gate timeouts as
advisory, not fatal: deploy-with-cilium.py exits 0 exactly when the image
build, image load and the two `kubectl apply` commands succeed, regardless
of the outcome of the pod-readiness gate; a timed-out gate only prints a
warning. -/
theorem c7_exit_amended (env : CiliumDeployEnv) :
    deploy_with_cilium_exit env =
      if env.buildOk && env.loadOk && env.deployManifestOk && env.serviceManifestOk
      then 0 else 1 := by
  obtain ⟨b, l, d, s, p⟩ := env
  cases b <;> cases l <;> cases d <;> cases s <;> rfl

/-- C8, confirmed: the pod-readiness signal of the scripts is the plain
substring test — the guard `result.stdout and "true" in result.stdout`
coincides with `"true" in result.stdout` for every output, it accepts
outputs such as `"false true"` and `"falsetrue"`, and the polling loop built
on it declares ready exactly when `"true"` occurs somewhere in the output. -/
theorem c8_substring_signal :
    (∀ s, wait_for_pods_ready_sig s = strContains s "true") ∧
    wait_for_pods_ready_sig "false true" = true ∧
    wait_for_pods_ready_sig "falsetrue" = true ∧
    full_stack_ready_sig "false true" = true ∧
    full_stack_ready_sig "falsetrue" = true ∧
    (∀ s timeout, 0 < timeout →
      (wait_for_pods (fun _ => CheckResult.val (wait_for_pods_ready_sig s)) timeout).outcome =
        if strContains s "true" then Outcome.ready else Outcome.timedOut) := by
  refine ⟨wait_sig_eq_strContains, by decide, by decide, by decide, by decide, ?_⟩
  intro s timeout htime
  by_cases hc : strContains s "true" = true
  · have h := pollLoop_first_true false
      (fun _ => CheckResult.val (wait_for_pods_ready_sig s)) 5 timeout
      (by simp [wait_sig_eq_strContains, hc]) htime
    unfold wait_for_pods
    rw [h, hc]
    rfl
  · have hc2 : strContains s "true" = false := by
      simpa using hc
    have hfalse : ∀ m : Nat, (fun _ : Nat => CheckResult.val (wait_for_pods_ready_sig s)) m =
        CheckResult.val false := by
      intro m
      simp [wait_sig_eq_strContains, hc2]
    obtain ⟨o1, _, _, _, _⟩ :=
      pollLoopAux_allFalse false (fun _ => CheckResult.val (wait_for_pods_ready_sig s))
        5 timeout hfalse (by omega) (timeout + 1) 0 0 (by omega) (by omega)
    unfold wait_for_pods pollLoop
    rw [o1, hc2]
    rfl

/-- C8, witness: the loop-level characterization applied at output
`"falsetrue"` and timeout 5. -/
theorem c8_witness :
    0 < 5 ∧
    (wait_for_pods (fun _ => CheckResult.val (wait_for_pods_ready_sig "falsetrue")) 5).outcome =
      if strContains "falsetrue" "true" then Outcome.ready else Outcome.timedOut :=
  ⟨by decide, c8_substring_signal.2.2.2.2.2 "falsetrue" 5 (by decide)⟩

/-- C9, confirmed: when the kubectl output of deploy-with-monitoring.py's
readiness loop is empty or whitespace-only, the all-tokens test
`all(status == "true" for status in output.strip().split())` is vacuously
true, so the loop declares the pods ready and exits on that very (first)
evaluation with no sleep. -/
theorem c9_empty_output_ready (out : Nat → String)
    (h : (out 0).toList.all isPySpace = true) :
    monitoring_ready_sig (out 0) = true ∧
    monitoring_pods_wait (fun n => CheckResult.val (monitoring_ready_sig (out n))) =
      ⟨.ready, [.call 0 (.val true)]⟩ ∧
    callCount (monitoring_pods_wait
      (fun n => CheckResult.val (monitoring_ready_sig (out n)))).trace = 1 := by
  have h1 := monitoring_sig_of_space (out 0) h
  have h2 := pollLoop_first_true true
    (fun n => CheckResult.val (monitoring_ready_sig (out n))) 5 120
    (by simp [h1]) (by decide)
  unfold monitoring_pods_wait
  rw [h2]
  exact ⟨h1, rfl, rfl⟩

/-- C9, witness: a whitespace-only output `" "` makes the loop declare ready
on its first evaluation. -/
theorem c9_witness :
    ((" " : String).toList.all isPySpace = true) ∧
    (monitoring_ready_sig " " = true ∧
      monitoring_pods_wait (fun n => CheckResult.val (monitoring_ready_sig ((fun _ => " ") n))) =
        ⟨.ready, [.call 0 (.val true)]⟩ ∧
      callCount (monitoring_pods_wait
        (fun n => CheckResult.val (monitoring_ready_sig ((fun _ => " ") n)))).trace = 1) :=
  ⟨by decide, c9_empty_output_ready (fun _ => " ") (by decide)⟩

/-- C10, counterexample: the two readiness predicates disagree on the output
`"false true"` — the substring test of deploy-full-stack.py reports ready,
the all-tokens test of deploy-with-monitoring.py does not. -/
theorem c10_counterexample :
    full_stack_ready_sig "false true" = true ∧
    monitoring_ready_sig "false true" = false := by
  decide

/-- C10, amended: the two predicates are not equivalent (they disagree, e.g.,
on `"false true"`, and on whitespace-only output where the all-tokens test is
vacuously true while the substring test is false); only one direction holds,
and only for outputs with at least one token: if the output has a token and
the all-tokens test passes, the substring test passes too. -/
theorem c10_predicates_amended (s : String)
    (hne : pySplitWs (pyStrip s.toList) ≠ [])
    (hall : monitoring_ready_sig s = true) :
    full_stack_ready_sig s = true :=
  full_stack_of_monitoring s hne hall

/-- C10, witness: on the output `"true true"` both hypotheses hold and the
substring test indeed reports ready. -/
theorem c10_witness :
    (pySplitWs (pyStrip ("true true" : String).toList) ≠ [] ∧
      monitoring_ready_sig "true true" = true) ∧
    full_stack_ready_sig "true true" = true :=
  ⟨⟨by decide, by decide⟩, c10_predicates_amended "true true" (by decide) (by decide)⟩

end FootballApp
